import Mathlib

/-!
Shallow embedding of the screenshot utility and its test-suite helpers
(`src/scripts/screenshot.py` and `src/tests/test_screenshots.py`).

The browser-automation page is modelled as a trace of the calls made on it
(`BEvent`), appended in program order; filesystem contents are a partial map
from path strings to byte lists (`FS`), refined where error handling is at
stake to a map into `FileNode` (`FSX`) that also has existing-but-unreadable
entries, with exception propagation made explicit as an `Option` result; the
image library is an environment holding a decode function (a `none` result
stands for `Image.open` raising) and a digest function.  Browser
launch/close, `os.makedirs` and `print` calls do not touch the page or the
compared files and are not part of the traces.
-/

/-- A call made on the browser page, in the order the Python code issues it.
`goto` is `page.goto`, `waitTimeout` is `page.wait_for_timeout`,
`click` is `page.click`, `mouseClick` is `page.mouse.click`,
`mouseWheel` is `page.mouse.wheel`, `mouseMove`/`mouseDown`/`mouseUp` are the
drag primitives, `evaluate` is `page.evaluate` and `screenshot` is
`page.screenshot` (with its `full_page` keyword). -/
inductive BEvent where
  | goto (url : String)
  | waitTimeout (ms : Nat)
  | click (selector : String)
  | mouseClick (x y : Int)
  | mouseWheel (dx dy : Int)
  | mouseMove (x y : Int)
  | mouseDown
  | mouseUp
  | evaluate (script : String)
  | screenshot (path : String) (full_page : Bool)
deriving DecidableEq, Repr

/-- The browser page, recorded as the trace of calls made on it so far. -/
structure Page where
  trace : List BEvent
deriving DecidableEq, Repr

/-- `page.goto(url)`. -/
def Page.goto (p : Page) (url : String) : Page :=
  ⟨p.trace ++ [BEvent.goto url]⟩

/-- `page.wait_for_timeout(ms)`. -/
def Page.wait_for_timeout (p : Page) (ms : Nat) : Page :=
  ⟨p.trace ++ [BEvent.waitTimeout ms]⟩

/-- `page.click(selector)`. -/
def Page.click (p : Page) (selector : String) : Page :=
  ⟨p.trace ++ [BEvent.click selector]⟩

/-- `page.mouse.click(x, y)`. -/
def Page.mouseClick (p : Page) (x y : Int) : Page :=
  ⟨p.trace ++ [BEvent.mouseClick x y]⟩

/-- `page.mouse.wheel(dx, dy)`. -/
def Page.mouseWheel (p : Page) (dx dy : Int) : Page :=
  ⟨p.trace ++ [BEvent.mouseWheel dx dy]⟩

/-- `page.mouse.move(x, y)`. -/
def Page.mouseMove (p : Page) (x y : Int) : Page :=
  ⟨p.trace ++ [BEvent.mouseMove x y]⟩

/-- `page.mouse.down()`. -/
def Page.mouseDown (p : Page) : Page :=
  ⟨p.trace ++ [BEvent.mouseDown]⟩

/-- `page.mouse.up()`. -/
def Page.mouseUp (p : Page) : Page :=
  ⟨p.trace ++ [BEvent.mouseUp]⟩

/-- `page.evaluate(script)`. -/
def Page.evaluate (p : Page) (script : String) : Page :=
  ⟨p.trace ++ [BEvent.evaluate script]⟩

/-- `page.screenshot(path=output_path, full_page=full_page)`. -/
def Page.screenshot (p : Page) (path : String) (full_page : Bool) : Page :=
  ⟨p.trace ++ [BEvent.screenshot path full_page]⟩

/-- One interaction dict from the `actions` list of
`screenshot_with_interaction`: a `type` string and the optional keys the
dispatch reads with `action.get(...)`.  A `none` field is an absent key. -/
structure ActionDict where
  type : String
  ms : Option Nat
  selector : Option String
  x : Option Int
  y : Option Int
  delta : Option Int
  start_x : Option Int
  start_y : Option Int
  end_x : Option Int
  end_y : Option Int
  script : Option String
deriving DecidableEq, Repr

/-- An action dict that carries only a `type` key. -/
def ActionDict.only (t : String) : ActionDict :=
  ⟨t, none, none, none, none, none, none, none, none, none, none⟩

/-- The body of the `for action in actions` loop of
`screenshot_with_interaction` (src/scripts/screenshot.py lines 117-148):
the if/elif chain on `action.get('type')`.  Python truthiness on the click
selector (`if selector:`) makes both an absent selector and the empty string
skip the `page.click` call.  For `scroll` the source computes
`x, y = action.get('x', width // 2), action.get('y', height // 2)` but the
call it makes is `page.mouse.wheel(delta, delta)`, so `x` and `y` are dead. -/
def perform (width height : Nat) (p : Page) (a : ActionDict) : Page :=
  if a.type = "wait" then
    p.wait_for_timeout (a.ms.getD 500)
  else if a.type = "click" then
    match a.selector with
    | some s => if s = "" then p else p.click s
    | none => p
  else if a.type = "click_position" then
    p.mouseClick (a.x.getD 0) (a.y.getD 0)
  else if a.type = "scroll" then
    let delta := a.delta.getD (-100)
    let _x := a.x.getD ((width : Int) / 2)
    let _y := a.y.getD ((height : Int) / 2)
    p.mouseWheel delta delta
  else if a.type = "drag" then
    (((p.mouseMove (a.start_x.getD 0) (a.start_y.getD 0)).mouseDown).mouseMove
        (a.end_x.getD 0) (a.end_y.getD 0)).mouseUp
  else if a.type = "evaluate" then
    p.evaluate (a.script.getD "")
  else
    p

/-- The whole `for action in actions` loop, in list order. -/
def performAll (width height : Nat) (p : Page) : List ActionDict → Page
  | [] => p
  | a :: rest => performAll width height (perform width height p a) rest

/-- `screenshot_html` (src/scripts/screenshot.py lines 13-69), as the trace
of page calls it makes plus its return value.  `abspathFn` stands for
`os.path.abspath`. -/
def screenshot_html (abspathFn : String → String)
    (html_path output_path : String) (width height wait_time : Nat)
    (full_page : Bool) : List BEvent × String :=
  let file_url := "file://" ++ abspathFn html_path
  let p0 : Page := ⟨[]⟩
  let p1 := p0.goto file_url
  let p2 := p1.wait_for_timeout wait_time
  let p3 := p2.screenshot output_path full_page
  (p3.trace, output_path)

/-- `screenshot_with_interaction` (src/scripts/screenshot.py lines 72-158),
as the trace of page calls it makes plus its return value.  `acts = none`
models the default `actions=None`; Python's `if actions:` also skips an
empty list, which performs no calls either way.  The final
`page.screenshot(path=output_path)` leaves `full_page` at its default
`False`. -/
def screenshot_with_interaction (abspathFn : String → String)
    (html_path output_path : String) (width height : Nat)
    (acts : Option (List ActionDict)) : List BEvent × String :=
  let file_url := "file://" ++ abspathFn html_path
  let p0 : Page := ⟨[]⟩
  let p1 := p0.goto file_url
  let p2 := p1.wait_for_timeout 500
  let p3 := match acts with
    | none => p2
    | some l => if l = [] then p2 else performAll width height p2 l
  let p4 := p3.wait_for_timeout 300
  let p5 := p4.screenshot output_path false
  (p5.trace, output_path)

/-- The closed set of action types the dispatch recognises. -/
def actionTypes : List String :=
  ["wait", "click", "click_position", "scroll", "drag", "evaluate"]

/-- A filesystem: each path either holds a byte string or does not exist.
`Path.exists()` is `(fs p).isSome`; reading an existing file yields its
bytes. -/
def FS : Type := String → Option (List Nat)

/-- A decoded `PIL.Image`: its `size`, `mode` and `tobytes()` data, the three
things `images_are_identical` inspects. -/
structure PILImage where
  size : Nat × Nat
  mode : String
  tobytes : List Nat
deriving DecidableEq, Repr

/-- The ambient libraries `images_are_identical` uses: whether
`from PIL import Image` succeeds, what `Image.open` yields on given file
bytes (`none` models it raising, e.g. on undecodable data), and the
`hashlib.sha256` digest of a byte string. -/
structure Env where
  pilAvailable : Bool
  decode : List Nat → Option PILImage
  sha256 : List Nat → List Nat

/-- `images_are_identical` (src/tests/test_screenshots.py lines 25-65).
When PIL imports, the try block checks existence of both paths, opens both
images (any exception, e.g. an undecodable file, lands in
`except Exception: return False`), short-circuits on differing `size` or
`mode`, and otherwise compares `tobytes()`.  When the import raises
`ImportError`, the fallback re-checks existence and compares SHA-256
digests of the raw file bytes.

This total boolean model assumes every existing path is readable; under
that assumption it is exact.  The source's fallback branch can raise on an
existing but unreadable path — `except Exception` does not cover an
exception raised inside the sibling `except ImportError` handler — and
that error path is modelled separately by `images_are_identical_exc` over
the refined `FSX` filesystem below. -/
def images_are_identical (env : Env) (fs : FS) (path1 path2 : String) : Bool :=
  if env.pilAvailable then
    match fs path1, fs path2 with
    | some b1, some b2 =>
      (match env.decode b1, env.decode b2 with
       | some img1, some img2 =>
         if img1.size ≠ img2.size then false
         else if img1.mode ≠ img2.mode then false
         else decide (img1.tobytes = img2.tobytes)
       | _, _ => false)
    | _, _ => false
  else
    match fs path1, fs path2 with
    | some b1, some b2 => decide (env.sha256 b1 = env.sha256 b2)
    | _, _ => false

/-- `shutil.move(str(src), str(dst))` on the filesystem map: `dst` now holds
what `src` held, `src` is gone. -/
def moveFile (fs : FS) (src dst : String) : FS :=
  fun p => if p = dst then fs src else if p = src then none else fs p

/-- `path.unlink()` on the filesystem map. -/
def unlinkFile (fs : FS) (path : String) : FS :=
  fun p => if p = path then none else fs p

/-- `save_screenshot_if_changed` (src/tests/test_screenshots.py lines 68-87):
if the reference is missing, move the temp file there and report an update;
if the two files compare identical, delete the temp file and report no
update; otherwise move the temp file over the reference and report an
update.  Returns the reported flag and the resulting filesystem. -/
def save_screenshot_if_changed (env : Env) (fs : FS)
    (temp_path final_path : String) : Bool × FS :=
  match fs final_path with
  | none => (true, moveFile fs temp_path final_path)
  | some _ =>
    if images_are_identical env fs temp_path final_path then
      (false, unlinkFile fs temp_path)
    else
      (true, moveFile fs temp_path final_path)

/-- Spec-side notion for the C3 refinement, following the spec's words
"compares output files byte-for-byte": the two paths hold byte-for-byte
identical contents. -/
def specByteIdenticalFiles (fs : FS) (path1 path2 : String) : Prop :=
  ∃ b, fs path1 = some b ∧ fs path2 = some b

/-- A concrete environment with no image library and an (injective) identity
digest, used to evaluate the model on concrete inputs. -/
def envNoPil : Env :=
  ⟨false, fun _ => none, fun b => b⟩

/-- A concrete environment whose image library decodes a byte string `b` as
a 1×1 RGB image with pixel data `b`. -/
def envPil : Env :=
  ⟨true, fun b => some ⟨(1, 1), "RGB", b⟩, fun b => b⟩

/-- Concrete filesystem: a reference screenshot at "ref.png" only. -/
def fsRefOnly : FS :=
  fun p => if p = "ref.png" then some [0] else none

/-- Concrete filesystem: a screenshot at "s.png" only. -/
def fsSingle : FS :=
  fun p => if p = "s.png" then some [1] else none

/-- Concrete filesystem: identical bytes at "t.png" and "r.png". -/
def fsPair : FS :=
  fun p => if p = "t.png" then some [7] else if p = "r.png" then some [7] else none

/-- Concrete filesystem: byte strings [1,2] at "a.png" and "b.png". -/
def fsTwoSame : FS :=
  fun p => if p = "a.png" then some [1, 2] else if p = "b.png" then some [1, 2] else none

/-- Concrete filesystem holding no files at all. -/
def fsEmpty : FS :=
  fun _ => none

/-- What a path refers to on the refined filesystem: nothing, a readable
file with its bytes, or an existing but unreadable entry (an
access-restricted file, or a directory) for which `Path.exists()` is true
but opening and reading raises. -/
inductive FileNode where
  | absent
  | file (bytes : List Nat)
  | unreadable
deriving DecidableEq, Repr

/-- A filesystem refined with existing-but-unreadable entries. -/
def FSX : Type := String → FileNode

/-- Forget readability: the plain contents view of a refined filesystem
(unreadable entries read as missing). -/
def FSX.toFS (fsx : FSX) : FS := fun q =>
  match fsx q with
  | FileNode.file b => some b
  | _ => none

/-- `images_are_identical` on the refined filesystem, with exceptions made
explicit: `some b` is a normal return, `none` an exception escaping the
function.  In the try block every exception — `Image.open` on an
unreadable entry, or on undecodable bytes — is caught by
`except Exception: return False`.  In the `except ImportError:` fallback,
`open(path, 'rb')` on an existing but unreadable entry raises inside the
handler, and `except Exception` does not cover an exception raised in a
sibling handler, so it propagates (`none`); the existence checks precede
the reads, and `file_hash(path1)` runs before `file_hash(path2)`. -/
def images_are_identical_exc (env : Env) (fsx : FSX) (path1 path2 : String) :
    Option Bool :=
  if env.pilAvailable then
    match fsx path1, fsx path2 with
    | FileNode.absent, _ => some false
    | _, FileNode.absent => some false
    | FileNode.unreadable, _ => some false
    | _, FileNode.unreadable => some false
    | FileNode.file b1, FileNode.file b2 =>
      match env.decode b1, env.decode b2 with
      | some img1, some img2 =>
        some (if img1.size ≠ img2.size then false
              else if img1.mode ≠ img2.mode then false
              else decide (img1.tobytes = img2.tobytes))
      | _, _ => some false
  else
    match fsx path1, fsx path2 with
    | FileNode.absent, _ => some false
    | _, FileNode.absent => some false
    | FileNode.unreadable, _ => none
    | _, FileNode.unreadable => none
    | FileNode.file b1, FileNode.file b2 =>
      some (decide (env.sha256 b1 = env.sha256 b2))

/-- Concrete refined filesystem: an existing but unreadable entry at
"dir", a readable file at "b.png", nothing elsewhere. -/
def fsxUnreadable : FSX :=
  fun p =>
    if p = "dir" then FileNode.unreadable
    else if p = "b.png" then FileNode.file [1]
    else FileNode.absent

/-- The loop body only ever appends events to the page trace. -/
theorem perform_trace_eq (width height : Nat) (p : Page) (a : ActionDict) :
    (perform width height p a).trace
      = p.trace ++ (perform width height ⟨[]⟩ a).trace := by
  unfold perform
  by_cases h1 : a.type = "wait"
  · simp [h1, Page.wait_for_timeout]
  · by_cases h2 : a.type = "click"
    · cases hsel : a.selector with
      | none => simp [h1, h2, hsel]
      | some s =>
        by_cases hs : s = "" <;> simp [h1, h2, hsel, hs, Page.click]
    · by_cases h3 : a.type = "click_position"
      · simp [h1, h2, h3, Page.mouseClick]
      · by_cases h4 : a.type = "scroll"
        · simp [h1, h2, h3, h4, Page.mouseWheel]
        · by_cases h5 : a.type = "drag"
          · simp [h1, h2, h3, h4, h5, Page.mouseMove, Page.mouseDown, Page.mouseUp]
          · by_cases h6 : a.type = "evaluate"
            · simp [h1, h2, h3, h4, h5, h6, Page.evaluate]
            · simp [h1, h2, h3, h4, h5, h6]

/-- The whole loop only ever appends events to the page trace. -/
theorem performAll_trace_eq (width height : Nat) (p : Page) (l : List ActionDict) :
    (performAll width height p l).trace
      = p.trace ++ (performAll width height ⟨[]⟩ l).trace := by
  induction l generalizing p with
  | nil => simp [performAll]
  | cons a rest ih =>
    simp only [performAll]
    rw [ih (perform width height p a), ih (perform width height ⟨[]⟩ a),
      perform_trace_eq]
    simp

/-- Processing a concatenation of action lists processes the first list,
then the second. -/
theorem performAll_append (width height : Nat) (p : Page) (l₁ l₂ : List ActionDict) :
    performAll width height p (l₁ ++ l₂)
      = performAll width height (performAll width height p l₁) l₂ := by
  induction l₁ generalizing p with
  | nil => simp [performAll]
  | cons a rest ih =>
    simp only [List.cons_append, performAll]
    exact ih (perform width height p a)

/-- C7: for every html path, output path and wait time, `screenshot_html`
navigates to the file:// URL formed from the absolute path of the html
path, waits exactly `wait_time` milliseconds, then calls the library's
screenshot method with the output path, and returns the output path. -/
theorem screenshot_html_event_order (abspathFn : String → String)
    (html_path output_path : String) (width height wait_time : Nat)
    (full_page : Bool) :
    (screenshot_html abspathFn html_path output_path width height wait_time full_page).1
      = [BEvent.goto ("file://" ++ abspathFn html_path),
         BEvent.waitTimeout wait_time,
         BEvent.screenshot output_path full_page]
    ∧ (screenshot_html abspathFn html_path output_path width height wait_time full_page).2
      = output_path := by
  constructor
  · simp [screenshot_html, Page.goto, Page.wait_for_timeout, Page.screenshot]
  · rfl

/-- C6: the page calls of `screenshot_with_interaction` occur in this order:
navigate, a 500 ms initial wait, each supplied action's calls in list order
(the last conjunct states that a concatenation of action lists contributes
the first list's events followed by the second's), a 300 ms settling wait,
and the screenshot last — nothing is dispatched after it; the output path
is returned. -/
theorem screenshot_with_interaction_event_order (abspathFn : String → String)
    (html_path output_path : String) (width height : Nat)
    (acts : Option (List ActionDict)) :
    (screenshot_with_interaction abspathFn html_path output_path width height acts).1
      = [BEvent.goto ("file://" ++ abspathFn html_path), BEvent.waitTimeout 500]
        ++ (performAll width height ⟨[]⟩ (acts.getD [])).trace
        ++ [BEvent.waitTimeout 300, BEvent.screenshot output_path false]
    ∧ (screenshot_with_interaction abspathFn html_path output_path width height acts).1.getLast?
      = some (BEvent.screenshot output_path false)
    ∧ (screenshot_with_interaction abspathFn html_path output_path width height acts).2
      = output_path
    ∧ ∀ l₁ l₂ : List ActionDict,
        (performAll width height ⟨[]⟩ (l₁ ++ l₂)).trace
          = (performAll width height ⟨[]⟩ l₁).trace
            ++ (performAll width height ⟨[]⟩ l₂).trace := by
  have htrace :
      (screenshot_with_interaction abspathFn html_path output_path width height acts).1
        = [BEvent.goto ("file://" ++ abspathFn html_path), BEvent.waitTimeout 500]
          ++ (performAll width height ⟨[]⟩ (acts.getD [])).trace
          ++ [BEvent.waitTimeout 300, BEvent.screenshot output_path false] := by
    unfold screenshot_with_interaction
    cases acts with
    | none =>
      simp [Page.goto, Page.wait_for_timeout, Page.screenshot, performAll]
    | some l =>
      by_cases hl : l = []
      · simp [hl, Page.goto, Page.wait_for_timeout, Page.screenshot, performAll]
      · simp only [hl, if_false, Option.getD_some, Page.goto, Page.wait_for_timeout,
          Page.screenshot, ite_false]
        rw [performAll_trace_eq]
        simp [Page.goto, Page.wait_for_timeout, Page.screenshot]
  refine ⟨htrace, ?_, rfl, ?_⟩
  · rw [htrace]
    rw [show [BEvent.goto ("file://" ++ abspathFn html_path), BEvent.waitTimeout 500]
          ++ (performAll width height ⟨[]⟩ (acts.getD [])).trace
          ++ [BEvent.waitTimeout 300, BEvent.screenshot output_path false]
        = ([BEvent.goto ("file://" ++ abspathFn html_path), BEvent.waitTimeout 500]
          ++ (performAll width height ⟨[]⟩ (acts.getD [])).trace)
          ++ BEvent.waitTimeout 300 :: [BEvent.screenshot output_path false] by simp]
    rw [List.getLast?_append_cons]
    rfl
  · intro l₁ l₂
    rw [performAll_append, performAll_trace_eq]

/-- C4 (amended): the dispatch recognises exactly the six listed action
types; an action whose type is outside the set causes no browser call;
within the set, a `wait` dispatches the timed wait, a `click` dispatches
`page.click` on its selector — unless the selector is missing or empty, in
which case no call is made — and every recognised non-click action makes a
browser call. -/
theorem perform_dispatch_closed_set (width height : Nat) (p : Page) (a : ActionDict) :
    (a.type ∉ actionTypes → (perform width height p a).trace = p.trace)
    ∧ ((perform width height p a).trace ≠ p.trace → a.type ∈ actionTypes)
    ∧ (a.type = "wait" →
        (perform width height p a).trace
          = p.trace ++ [BEvent.waitTimeout (a.ms.getD 500)])
    ∧ (∀ s, a.type = "click" → a.selector = some s → s ≠ "" →
        (perform width height p a).trace = p.trace ++ [BEvent.click s])
    ∧ (a.type = "click" → (a.selector = none ∨ a.selector = some "") →
        (perform width height p a).trace = p.trace)
    ∧ (a.type ∈ actionTypes →
        a.type = "click" ∨ (perform width height p a).trace ≠ p.trace) := by
  refine ⟨?_, ?_, ?_, ?_, ?_, ?_⟩
  · intro hmem
    simp only [actionTypes, List.mem_cons, List.not_mem_nil, or_false] at hmem
    push_neg at hmem
    obtain ⟨h1, h2, h3, h4, h5, h6⟩ := hmem
    simp [perform, h1, h2, h3, h4, h5, h6]
  · intro hne
    by_contra hmem
    apply hne
    simp only [actionTypes, List.mem_cons, List.not_mem_nil, or_false] at hmem
    push_neg at hmem
    obtain ⟨h1, h2, h3, h4, h5, h6⟩ := hmem
    simp [perform, h1, h2, h3, h4, h5, h6]
  · intro h
    simp [perform, h, Page.wait_for_timeout]
  · intro s h hsel hs
    simp [perform, h, hsel, hs, Page.click]
  · intro h hsel
    rcases hsel with hsel | hsel <;> simp [perform, h, hsel]
  · intro hmem
    simp only [actionTypes, List.mem_cons, List.not_mem_nil, or_false] at hmem
    rcases hmem with h | h | h | h | h | h
    · right; simp [perform, h, Page.wait_for_timeout]
    · left; exact h
    · right; simp [perform, h, Page.mouseClick]
    · right; simp [perform, h, Page.mouseWheel]
    · right; simp [perform, h, Page.mouseMove, Page.mouseDown, Page.mouseUp]
    · right; simp [perform, h, Page.evaluate]

/-- C4, counterexample to the claim as stated: `click` is in the recognised
set, yet a click action carrying no selector makes no browser call at all. -/
theorem perform_click_without_selector_no_call :
    "click" ∈ actionTypes
    ∧ (perform 1200 800 ⟨[]⟩ (ActionDict.only "click")).trace = [] := by
  constructor
  · decide
  · rfl

/-- C4 witness: a concrete `wait` action dispatches its timed wait, and a
concrete unrecognised type makes no call. -/
theorem perform_dispatch_closed_set_witness :
    (perform 1200 800 ⟨[]⟩
        ⟨"wait", some 250, none, none, none, none, none, none, none, none, none⟩).trace
      = [BEvent.waitTimeout 250]
    ∧ (perform 1200 800 ⟨[]⟩ (ActionDict.only "hover")).trace = [] := by
  constructor
  · simpa using
      (perform_dispatch_closed_set 1200 800 ⟨[]⟩
        ⟨"wait", some 250, none, none, none, none, none, none, none, none, none⟩).2.2.1 rfl
  · exact (perform_dispatch_closed_set 1200 800 ⟨[]⟩ (ActionDict.only "hover")).1
      (by decide)

/-- C5 (amended): a click-at-position action forwards its configured (or
defaulted) x and y to `page.mouse.click`, a drag forwards its four
coordinates to the move/down/move/up sequence, an evaluate forwards its
script verbatim; a scroll passes its configured delta unchanged as both
arguments of `page.mouse.wheel`, and its configured (or defaulted) x and y
are not forwarded to any call. -/
theorem perform_forwards_parameters (width height : Nat) (p : Page) (a : ActionDict) :
    (a.type = "click_position" →
      (perform width height p a).trace
        = p.trace ++ [BEvent.mouseClick (a.x.getD 0) (a.y.getD 0)])
    ∧ (a.type = "scroll" →
      (perform width height p a).trace
        = p.trace ++ [BEvent.mouseWheel (a.delta.getD (-100)) (a.delta.getD (-100))])
    ∧ (a.type = "drag" →
      (perform width height p a).trace
        = p.trace ++ [BEvent.mouseMove (a.start_x.getD 0) (a.start_y.getD 0),
            BEvent.mouseDown,
            BEvent.mouseMove (a.end_x.getD 0) (a.end_y.getD 0), BEvent.mouseUp])
    ∧ (a.type = "evaluate" →
      (perform width height p a).trace = p.trace ++ [BEvent.evaluate (a.script.getD "")]) := by
  refine ⟨?_, ?_, ?_, ?_⟩
  · intro h
    simp [perform, h, Page.mouseClick]
  · intro h
    simp [perform, h, Page.mouseWheel]
  · intro h
    simp [perform, h, Page.mouseMove, Page.mouseDown, Page.mouseUp]
  · intro h
    simp [perform, h, Page.evaluate]

/-- C5, counterexample to the claim as stated: a scroll action configured
with delta 42 and position x = 5, y = 7 results in the single wheel call
`wheel(42, 42)` — the delta is passed twice and the position nowhere. -/
theorem scroll_positions_not_forwarded :
    (perform 1200 800 ⟨[]⟩
        ⟨"scroll", none, none, some 5, some 7, some 42, none, none, none, none, none⟩).trace
      = [BEvent.mouseWheel 42 42] := by
  rfl

/-- C5 witness: a concrete click-at-position action forwards its
coordinates. -/
theorem perform_forwards_parameters_witness :
    (perform 1200 800 ⟨[]⟩
        ⟨"click_position", none, none, some 11, some 22, none, none, none, none, none, none⟩).trace
      = [BEvent.mouseClick 11 22] := by
  simpa using
    (perform_forwards_parameters 1200 800 ⟨[]⟩
      ⟨"click_position", none, none, some 11, some 22, none, none, none, none, none, none⟩).1 rfl

/-- C2: with the image library available, for existing files whose bytes
both decode, `images_are_identical` returns true exactly when the two
decoded images agree on size, mode and raw pixel bytes. -/
theorem images_are_identical_pil_iff (env : Env) (fs : FS) (path1 path2 : String)
    (b1 b2 : List Nat) (img1 img2 : PILImage)
    (hpil : env.pilAvailable = true)
    (h1 : fs path1 = some b1) (h2 : fs path2 = some b2)
    (d1 : env.decode b1 = some img1) (d2 : env.decode b2 = some img2) :
    images_are_identical env fs path1 path2 = true
      ↔ img1.size = img2.size ∧ img1.mode = img2.mode ∧ img1.tobytes = img2.tobytes := by
  unfold images_are_identical
  rw [hpil, h1, h2]
  simp only [if_true]
  simp only [d1, d2]
  by_cases hs : img1.size = img2.size
  · by_cases hm : img1.mode = img2.mode <;> simp [hs, hm]
  · simp [hs]

/-- C2 witness: two existing files that decode to the same 1-by-1 RGB image
compare identical. -/
theorem images_are_identical_pil_iff_witness :
    images_are_identical envPil fsTwoSame "a.png" "b.png" = true := by
  exact (images_are_identical_pil_iff envPil fsTwoSame "a.png" "b.png"
    [1, 2] [1, 2] ⟨(1, 1), "RGB", [1, 2]⟩ ⟨(1, 1), "RGB", [1, 2]⟩
    rfl rfl rfl rfl rfl).mpr ⟨rfl, rfl, rfl⟩

/-- C3: with the image library unavailable, for existing files,
`images_are_identical` returns true exactly when the SHA-256 digests of the
two byte strings agree; with the digest injective, that is exactly
byte-for-byte identity of the two files' contents. -/
theorem images_are_identical_digest_refines_byte_equality
    (env : Env) (fs : FS) (path1 path2 : String) (b1 b2 : List Nat)
    (hpil : env.pilAvailable = false)
    (hinj : Function.Injective env.sha256)
    (h1 : fs path1 = some b1) (h2 : fs path2 = some b2) :
    (images_are_identical env fs path1 path2 = true
      ↔ env.sha256 b1 = env.sha256 b2)
    ∧ (images_are_identical env fs path1 path2 = true
      ↔ specByteIdenticalFiles fs path1 path2) := by
  have hbase : images_are_identical env fs path1 path2
      = decide (env.sha256 b1 = env.sha256 b2) := by
    unfold images_are_identical
    rw [hpil, h1, h2]
    simp
  constructor
  · rw [hbase]
    simp only [decide_eq_true_eq]
  · rw [hbase]
    simp only [decide_eq_true_eq]
    constructor
    · intro hsha
      cases hinj hsha
      exact ⟨b1, h1, h2⟩
    · rintro ⟨b, hb1, hb2⟩
      rw [h1] at hb1
      rw [h2] at hb2
      cases Option.some.inj hb1
      cases Option.some.inj hb2
      rfl

/-- C3 witness: with no image library and the identity (injective) digest,
two files with identical bytes compare identical. -/
theorem images_are_identical_digest_witness :
    images_are_identical envNoPil fsTwoSame "a.png" "b.png" = true := by
  exact (images_are_identical_digest_refines_byte_equality envNoPil fsTwoSame
    "a.png" "b.png" [1, 2] [1, 2] rfl (fun _ _ hh => hh) rfl rfl).2.mpr
    ⟨[1, 2], rfl, rfl⟩

/-- C10: `images_are_identical` is symmetric in its two paths, in the
image-library branch, the digest fallback branch, and the
missing-file/exception cases alike. -/
theorem images_are_identical_symm (env : Env) (fs : FS) (path1 path2 : String) :
    images_are_identical env fs path1 path2 = images_are_identical env fs path2 path1 := by
  unfold images_are_identical
  cases hpil : env.pilAvailable with
  | false =>
    simp only [Bool.false_eq_true, if_false]
    cases h1 : fs path1 with
    | none => cases h2 : fs path2 <;> simp
    | some b1 =>
      cases h2 : fs path2 with
      | none => simp
      | some b2 =>
        simp only []
        exact decide_eq_decide.mpr eq_comm
  | true =>
    simp only [if_true]
    cases h1 : fs path1 with
    | none => cases h2 : fs path2 <;> simp
    | some b1 =>
      cases h2 : fs path2 with
      | none => simp
      | some b2 =>
        cases d1 : env.decode b1 with
        | none => cases d2 : env.decode b2 <;> simp [d1, d2]
        | some i1 =>
          cases d2 : env.decode b2 with
          | none => simp [d1, d2]
          | some i2 =>
            by_cases hs : i1.size = i2.size
            · by_cases hm : i1.mode = i2.mode
              · by_cases ht : i1.tobytes = i2.tobytes
                · simp [d1, d2, hs, hm, ht]
                · simp [d1, d2, hs, hm, ht, Ne.symm ht]
              · simp [d1, d2, hs, hm, Ne.symm hm]
            · simp [d1, d2, hs]
              intro h
              exact absurd h.symm hs

/-- C1 (amended): for a temporary path distinct from the reference path,
with the temporary file existing: when the reference is missing, the call
returns true and the reference receives the temporary file's bytes; when
the reference exists and the files compare identical, the call returns
false and the reference's bytes are unchanged; when they compare
different, the call returns true and the reference receives the temporary
file's bytes. -/
theorem save_screenshot_if_changed_update_spec (env : Env) (fs : FS)
    (temp_path final_path : String) (tb : List Nat)
    (hne : temp_path ≠ final_path) (ht : fs temp_path = some tb) :
    (∀ rb, fs final_path = some rb →
      (images_are_identical env fs temp_path final_path = true →
        (save_screenshot_if_changed env fs temp_path final_path).1 = false
        ∧ (save_screenshot_if_changed env fs temp_path final_path).2 final_path = some rb)
      ∧ (images_are_identical env fs temp_path final_path = false →
        (save_screenshot_if_changed env fs temp_path final_path).1 = true
        ∧ (save_screenshot_if_changed env fs temp_path final_path).2 final_path = some tb))
    ∧ (fs final_path = none →
        (save_screenshot_if_changed env fs temp_path final_path).1 = true
        ∧ (save_screenshot_if_changed env fs temp_path final_path).2 final_path = some tb) := by
  constructor
  · intro rb hrb
    constructor
    · intro hid
      constructor
      · simp [save_screenshot_if_changed, hrb, hid]
      · simp [save_screenshot_if_changed, hrb, hid, unlinkFile, Ne.symm hne]
    · intro hid
      constructor
      · simp [save_screenshot_if_changed, hrb, hid]
      · simp [save_screenshot_if_changed, hrb, hid, moveFile]
        exact ht
  · intro hnone
    constructor
    · simp [save_screenshot_if_changed, hnone]
    · simp [save_screenshot_if_changed, hnone, moveFile]
      exact ht

/-- C1, counterexample to the claim as stated: with no distinctness
restriction, calling the function with the temporary path equal to the
reference path of an existing file lands in the identical branch (the file
equals itself), returns false — and the `unlink` of the temporary file
destroys the reference's content rather than leaving it unchanged. -/
theorem save_screenshot_aliasing_destroys_reference :
    fsRefOnly "ref.png" = some [0]
    ∧ images_are_identical envNoPil fsRefOnly "ref.png" "ref.png" = true
    ∧ (save_screenshot_if_changed envNoPil fsRefOnly "ref.png" "ref.png").1 = false
    ∧ (save_screenshot_if_changed envNoPil fsRefOnly "ref.png" "ref.png").2 "ref.png" = none := by
  refine ⟨rfl, by decide, by decide, by decide⟩

/-- C1 witness: with identical bytes at distinct paths "t.png" and "r.png",
the call reports no update and the reference keeps its bytes. -/
theorem save_screenshot_if_changed_update_spec_witness :
    (save_screenshot_if_changed envNoPil fsPair "t.png" "r.png").1 = false
    ∧ (save_screenshot_if_changed envNoPil fsPair "t.png" "r.png").2 "r.png" = some [7] := by
  exact ((save_screenshot_if_changed_update_spec envNoPil fsPair "t.png" "r.png" [7]
    (by decide) rfl).1 [7] rfl).1 (by decide)

/-- C9 (amended): for a temporary path distinct from the reference path,
after a call on an existing temporary file the temporary path no longer
exists and the reference path holds some content — the temporary file is
consumed on every branch. -/
theorem save_screenshot_if_changed_consumes_temp (env : Env) (fs : FS)
    (temp_path final_path : String) (tb : List Nat)
    (hne : temp_path ≠ final_path) (ht : fs temp_path = some tb) :
    (save_screenshot_if_changed env fs temp_path final_path).2 temp_path = none
    ∧ ∃ c, (save_screenshot_if_changed env fs temp_path final_path).2 final_path = some c := by
  unfold save_screenshot_if_changed
  cases hf : fs final_path with
  | none =>
    constructor
    · simp [moveFile, hne]
    · exact ⟨tb, by simp [moveFile]; exact ht⟩
  | some rb =>
    by_cases hid : images_are_identical env fs temp_path final_path
    · constructor
      · simp [hid, unlinkFile]
      · refine ⟨rb, ?_⟩
        simp [hid, unlinkFile, Ne.symm hne]
        exact hf
    · constructor
      · simp [hid, moveFile, hne]
      · exact ⟨tb, by simp [hid, moveFile]; exact ht⟩

/-- C9, counterexample to the claim as stated: with the temporary path
equal to the reference path of an existing file, the call consumes the
file and afterwards the reference path does not exist. -/
theorem save_screenshot_aliasing_reference_missing :
    fsSingle "s.png" = some [1]
    ∧ (save_screenshot_if_changed envNoPil fsSingle "s.png" "s.png").2 "s.png" = none := by
  refine ⟨rfl, by decide⟩

/-- C9 witness: moving "t.png" onto the missing reference "missing.png"
consumes the temporary file and creates the reference. -/
theorem save_screenshot_if_changed_consumes_temp_witness :
    (save_screenshot_if_changed envNoPil fsPair "t.png" "missing.png").2 "t.png" = none
    ∧ (save_screenshot_if_changed envNoPil fsPair "t.png" "missing.png").2 "missing.png"
      = some [7] := by
  refine ⟨(save_screenshot_if_changed_consumes_temp envNoPil fsPair "t.png" "missing.png" [7]
    (by decide) rfl).1, by decide⟩

/-- C8, counterexample to the claim as stated: with the image library
unavailable, comparing an existing but unreadable path against an existing
readable file does not yield False — the read failure escapes the
`except ImportError` fallback handler and the call raises (`none`). -/
theorem images_are_identical_fallback_read_raises :
    fsxUnreadable "dir" ≠ FileNode.absent
    ∧ fsxUnreadable "b.png" ≠ FileNode.absent
    ∧ images_are_identical_exc envNoPil fsxUnreadable "dir" "b.png" = none := by
  refine ⟨by decide, by decide, by decide⟩

/-- C8 (amended): `images_are_identical` returns False whenever either path
does not refer to an existing entry; with the image library available it
never raises — it always returns a boolean, and in particular an unreadable
entry or an undecodable file on either side yields False; with the image
library unavailable, a read failure on an existing entry (an unreadable
file or a directory) propagates out of the function instead of yielding
False. -/
theorem images_are_identical_exc_error_spec (env : Env) (fsx : FSX)
    (path1 path2 : String) :
    ((fsx path1 = FileNode.absent ∨ fsx path2 = FileNode.absent) →
      images_are_identical_exc env fsx path1 path2 = some false)
    ∧ (env.pilAvailable = true →
      ∃ b, images_are_identical_exc env fsx path1 path2 = some b)
    ∧ (env.pilAvailable = true → fsx path1 = FileNode.unreadable →
        fsx path2 ≠ FileNode.absent →
        images_are_identical_exc env fsx path1 path2 = some false)
    ∧ (env.pilAvailable = true → fsx path2 = FileNode.unreadable →
        fsx path1 ≠ FileNode.absent →
        images_are_identical_exc env fsx path1 path2 = some false)
    ∧ (∀ b1, env.pilAvailable = true → fsx path1 = FileNode.file b1 →
        env.decode b1 = none →
        images_are_identical_exc env fsx path1 path2 = some false)
    ∧ (∀ b2, env.pilAvailable = true → fsx path2 = FileNode.file b2 →
        env.decode b2 = none →
        images_are_identical_exc env fsx path1 path2 = some false)
    ∧ (env.pilAvailable = false → fsx path1 = FileNode.unreadable →
        fsx path2 ≠ FileNode.absent →
        images_are_identical_exc env fsx path1 path2 = none)
    ∧ (env.pilAvailable = false → fsx path1 ≠ FileNode.absent →
        fsx path1 ≠ FileNode.unreadable → fsx path2 = FileNode.unreadable →
        images_are_identical_exc env fsx path1 path2 = none) := by
  refine ⟨?_, ?_, ?_, ?_, ?_, ?_, ?_, ?_⟩
  · intro h
    cases hpil : env.pilAvailable <;>
      rcases h with h | h <;>
        cases h1 : fsx path1 <;>
          cases h2 : fsx path2 <;>
            simp_all [images_are_identical_exc]
  · intro hpil
    cases h1 : fsx path1 with
    | absent => exact ⟨false, by simp [images_are_identical_exc, hpil, h1]⟩
    | unreadable =>
      cases h2 : fsx path2 <;>
        exact ⟨false, by simp [images_are_identical_exc, hpil, h1, h2]⟩
    | file b1 =>
      cases h2 : fsx path2 with
      | absent => exact ⟨false, by simp [images_are_identical_exc, hpil, h1, h2]⟩
      | unreadable => exact ⟨false, by simp [images_are_identical_exc, hpil, h1, h2]⟩
      | file b2 =>
        cases d1 : env.decode b1 with
        | none =>
          cases d2 : env.decode b2 <;>
            exact ⟨false, by simp [images_are_identical_exc, hpil, h1, h2, d1, d2]⟩
        | some i1 =>
          cases d2 : env.decode b2 with
          | none => exact ⟨false, by simp [images_are_identical_exc, hpil, h1, h2, d1, d2]⟩
          | some i2 =>
            refine ⟨if i1.size ≠ i2.size then false
              else if i1.mode ≠ i2.mode then false
              else decide (i1.tobytes = i2.tobytes), ?_⟩
            simp [images_are_identical_exc, hpil, h1, h2, d1, d2]
  · intro hpil h1 h2ne
    cases h2 : fsx path2 with
    | absent => exact absurd h2 h2ne
    | unreadable => simp [images_are_identical_exc, hpil, h1, h2]
    | file b2 => simp [images_are_identical_exc, hpil, h1, h2]
  · intro hpil h2 h1ne
    cases h1 : fsx path1 with
    | absent => exact absurd h1 h1ne
    | unreadable => simp [images_are_identical_exc, hpil, h1, h2]
    | file b1 => simp [images_are_identical_exc, hpil, h1, h2]
  · intro b1 hpil h1 hd1
    cases h2 : fsx path2 with
    | absent => simp [images_are_identical_exc, hpil, h1, h2]
    | unreadable => simp [images_are_identical_exc, hpil, h1, h2]
    | file b2 =>
      cases d2 : env.decode b2 <;>
        simp [images_are_identical_exc, hpil, h1, h2, hd1, d2]
  · intro b2 hpil h2 hd2
    cases h1 : fsx path1 with
    | absent => simp [images_are_identical_exc, hpil, h1, h2]
    | unreadable => simp [images_are_identical_exc, hpil, h1, h2]
    | file b1 =>
      cases d1 : env.decode b1 <;>
        simp [images_are_identical_exc, hpil, h1, h2, hd2, d1]
  · intro hpil h1 h2ne
    cases h2 : fsx path2 with
    | absent => exact absurd h2 h2ne
    | unreadable => simp [images_are_identical_exc, hpil, h1, h2]
    | file b2 => simp [images_are_identical_exc, hpil, h1, h2]
  · intro hpil h1ne h1nu h2
    cases h1 : fsx path1 with
    | absent => exact absurd h1 h1ne
    | unreadable => exact absurd h1 h1nu
    | file b1 => simp [images_are_identical_exc, hpil, h1, h2]

/-- C8 witness: a missing path on one side yields the normal return
`some false`. -/
theorem images_are_identical_exc_error_spec_witness :
    images_are_identical_exc envNoPil fsxUnreadable "missing.png" "b.png"
      = some false := by
  exact (images_are_identical_exc_error_spec envNoPil fsxUnreadable
    "missing.png" "b.png").1 (Or.inl rfl)

/-- On a refined filesystem with no unreadable entries the exception-aware
model never raises and agrees with the total boolean model, which is what
justifies using the latter for the readable-file claims. -/
theorem images_are_identical_exc_agrees (env : Env) (fsx : FSX)
    (path1 path2 : String) (hr : ∀ q, fsx q ≠ FileNode.unreadable) :
    images_are_identical_exc env fsx path1 path2
      = some (images_are_identical env (FSX.toFS fsx) path1 path2) := by
  cases hpil : env.pilAvailable with
  | true =>
    cases h1 : fsx path1 with
    | unreadable => exact absurd h1 (hr path1)
    | absent =>
      cases h2 : fsx path2 <;>
        simp [images_are_identical_exc, images_are_identical, FSX.toFS, hpil, h1, h2]
    | file b1 =>
      cases h2 : fsx path2 with
      | unreadable => exact absurd h2 (hr path2)
      | absent =>
        simp [images_are_identical_exc, images_are_identical, FSX.toFS, hpil, h1, h2]
      | file b2 =>
        cases d1 : env.decode b1 <;> cases d2 : env.decode b2 <;>
          simp [images_are_identical_exc, images_are_identical, FSX.toFS,
            hpil, h1, h2, d1, d2]
  | false =>
    cases h1 : fsx path1 with
    | unreadable => exact absurd h1 (hr path1)
    | absent =>
      cases h2 : fsx path2 <;>
        simp [images_are_identical_exc, images_are_identical, FSX.toFS, hpil, h1, h2]
    | file b1 =>
      cases h2 : fsx path2 with
      | unreadable => exact absurd h2 (hr path2)
      | absent =>
        simp [images_are_identical_exc, images_are_identical, FSX.toFS, hpil, h1, h2]
      | file b2 =>
        simp [images_are_identical_exc, images_are_identical, FSX.toFS, hpil, h1, h2]
